import Mathlib

/-!
Verification of the webhook-worker lifecycle controller
(`internal/services/webhooks/webhooks.go`).

The Go code is shallowly embedded as pure Lean functions:

* `hash` mirrors `hash(s []string)`: sort lexicographically (Go compares
  strings byte-wise; on UTF-8 that is code-point order, embedded here as
  `leChars` on `String.data`), then join with `","`.
* `run` mirrors `(*WebhooksController).run`: the health check, the
  `registeredWorkerIds` guard, transport start, and the initial state of
  the spawned monitor goroutine.  I/O outcomes (health-check result,
  transport-start result) are inputs in a `RunEnv`.
* `monitorStep` mirrors one `case <-timer.C:` body of the monitor
  goroutine (failure counting, deactivation, capability-change restart,
  re-activation); `monitorRun` folds it over a list of delivered ticks.
* `aggregateRelease` mirrors the closure `run` returns (cancel, then run
  the captured `cleanups` slice, returning on the first error); a Go
  `func() error` value is `Option Nat`: `none` is a nil function whose
  invocation panics, `some cid` is a release action whose error outcome
  is given by an environment `fails : Nat → Bool`.
* `shutdownFn` mirrors the closure returned by `Start`.
* `runWorkers` / `checkTenants` / `check` mirror `check`.
* `timerMaxDeliveries` models Go's `time.NewTimer`: the monitor creates a
  one-shot timer and never calls `Reset`, so its channel delivers at most
  one value over the goroutine's lifetime.
-/

namespace Webhooks

/-- Byte-wise (code-point) lexicographic comparison of character lists,
as Go's `<` on `string` behaves on UTF-8 data; `true` on equal lists. -/
def leChars : List Char → List Char → Bool
  | [], _ => true
  | _ :: _, [] => false
  | a :: as, b :: bs =>
    if a.toNat < b.toNat then true
    else if b.toNat < a.toNat then false
    else leChars as bs

/-- Go string comparison `a <= b`, used by `slices.Sort` on `[]string`. -/
def strLe (a b : String) : Bool := leChars a.data b.data

/-- The ordering relation `strLe` as a proposition. -/
abbrev StrLe (a b : String) : Prop := strLe a b = true

instance : DecidableRel StrLe := fun a b =>
  (inferInstance : Decidable (strLe a b = true))

theorem leChars_cons (a b : Char) (as bs : List Char) :
    leChars (a :: as) (b :: bs) = true ↔
      a.toNat < b.toNat ∨ (a.toNat = b.toNat ∧ leChars as bs = true) := by
  simp only [leChars]
  by_cases hab : a.toNat < b.toNat
  · simp [hab]
  · by_cases hba : b.toNat < a.toNat
    · simp [hab, hba]
      omega
    · have hev : a.toNat = b.toNat := by omega
      simp [hab, hba, hev]

theorem leChars_total : ∀ as bs : List Char,
    leChars as bs = true ∨ leChars bs as = true
  | [], _ => Or.inl rfl
  | _ :: _, [] => Or.inr rfl
  | a :: as, b :: bs => by
    rcases Nat.lt_trichotomy a.toNat b.toNat with h | h | h
    · left; rw [leChars_cons]; exact Or.inl h
    · rcases leChars_total as bs with hr | hr
      · left; rw [leChars_cons]; exact Or.inr ⟨h, hr⟩
      · right; rw [leChars_cons]; exact Or.inr ⟨h.symm, hr⟩
    · right; rw [leChars_cons]; exact Or.inl h

theorem leChars_trans : ∀ as bs cs : List Char,
    leChars as bs = true → leChars bs cs = true → leChars as cs = true
  | [], _, _, _, _ => rfl
  | _ :: _, [], _, h, _ => by simp [leChars] at h
  | _ :: _, _ :: _, [], _, h => by simp [leChars] at h
  | a :: as, b :: bs, c :: cs, h1, h2 => by
    rw [leChars_cons] at h1 h2 ⊢
    rcases h1 with h1 | ⟨he1, hr1⟩
    · rcases h2 with h2 | ⟨he2, _⟩
      · exact Or.inl (h1.trans h2)
      · exact Or.inl (he2 ▸ h1)
    · rcases h2 with h2 | ⟨he2, hr2⟩
      · exact Or.inl (he1 ▸ h2)
      · exact Or.inr ⟨he1.trans he2, leChars_trans as bs cs hr1 hr2⟩

theorem char_eq_of_toNat_eq {a b : Char} (h : a.toNat = b.toNat) : a = b :=
  Char.eq_of_val_eq (UInt32.eq_of_val_eq (Fin.ext h))

theorem leChars_antisymm : ∀ as bs : List Char,
    leChars as bs = true → leChars bs as = true → as = bs
  | [], [], _, _ => rfl
  | [], _ :: _, _, h => by simp [leChars] at h
  | _ :: _, [], h, _ => by simp [leChars] at h
  | a :: as, b :: bs, h1, h2 => by
    rw [leChars_cons] at h1 h2
    rcases h1 with h1 | ⟨he1, hr1⟩
    · rcases h2 with h2 | ⟨he2, _⟩
      · omega
      · omega
    · rcases h2 with h2 | ⟨he2, hr2⟩
      · omega
      · rw [char_eq_of_toNat_eq he1, leChars_antisymm as bs hr1 hr2]

theorem strLe_antisymm (a b : String) (h1 : StrLe a b) (h2 : StrLe b a) :
    a = b := by
  cases a with
  | mk as =>
    cases b with
    | mk bs => exact congrArg String.mk (leChars_antisymm as bs h1 h2)

instance : IsTotal String StrLe := ⟨fun a b => leChars_total a.data b.data⟩

instance : IsTrans String StrLe :=
  ⟨fun a b c => leChars_trans a.data b.data c.data⟩

instance : IsAntisymm String StrLe := ⟨strLe_antisymm⟩

/-- Embedding of `hash(s []string)` (webhooks.go lines 257-261): sort the
strings lexicographically, then join with `","`. -/
def hash (s : List String) : String :=
  String.intercalate "," (s.insertionSort StrLe)

/-- C8: for every list of strings and every permutation of it, `hash`
produces the same fingerprint, namely the lexicographically sorted list
joined with commas (order-independence of the fingerprint). -/
theorem hash_perm_invariant (l l' : List String) (h : l.Perm l') :
    hash l = hash l' ∧ hash l = String.intercalate "," (l.insertionSort StrLe) := by
  refine ⟨?_, rfl⟩
  unfold hash
  congr 1
  exact List.eq_of_perm_of_sorted
    (((l.perm_insertionSort StrLe).trans h).trans
      (l'.perm_insertionSort StrLe).symm)
    (List.sorted_insertionSort StrLe l) (List.sorted_insertionSort StrLe l')

/-- Witness for C8 at a concrete permutation: `hash ["b","a","c"]` equals
`hash ["a","b","c"]`, both being `"a,b,c"`. -/
theorem hash_perm_invariant_witness :
    (["b", "a", "c"] : List String).Perm ["a", "b", "c"] ∧
      hash ["b", "a", "c"] = hash ["a", "b", "c"] ∧
      hash ["a", "b", "c"] = "a,b,c" :=
  ⟨by decide, (hash_perm_invariant ["b", "a", "c"] ["a", "b", "c"] (by decide)).1,
    by decide⟩

deriving instance DecidableEq for Except

/-- Parsed body of a successful health check (`HealthCheckResponse`). -/
structure HealthCheckResponse where
  actions : List String
  workflows : List String
deriving Repr, DecidableEq

/-- The fields of `db.WebhookWorkerModel` this controller reads. -/
structure WorkerRecord where
  id : String
  url : String
  secret : String
deriving Repr, DecidableEq

/-- Observable side effects of the controller, in program order.
`scheduledProbe` is the health check at the top of a monitor tick
(line 182); `runProbe` is the health check at the top of `run`
(line 135); `runAttempt` marks one iteration of `check`'s per-worker
loop (line 84); `workersListed` marks a successful
`ListWebhookWorkers` for a tenant (line 78). -/
inductive Effect where
  | scheduledProbe (workerId : String)
  | runProbe (workerId : String)
  | startWorker (workerId : String)
  | spawnMonitor (workerId : String) (actionsHash wfsHash : String)
  | updateWorker (tenantId workerId : String) (isActive : Bool)
  | invokeCleanup (cid : Nat)
  | runAttempt (workerId : String)
  | workersListed (tenantId : String)
deriving Repr, DecidableEq

/-- State of one monitor goroutine between ticks: the loop variables
`wfsHashLast`, `actionsHashLast`, `healthCheckErrors` and the captured
`cleanups` slice.  A Go `func() error` value is `Option Nat`: `none` is
a nil function, `some cid` names a release action. -/
structure MonitorState where
  tenantId : String
  ww : WorkerRecord
  token : String
  wfsHashLast : String
  actionsHashLast : String
  healthCheckErrors : Nat
  cleanups : List (Option Nat)
deriving Repr, DecidableEq

/-- External outcomes consumed by one call of `run`: the health-check
result, the transport-start result (`webhook.NewWorker` + `w.Start`,
the spec's `StartWorker` collaborator) yielding the id of the
transport's release action, and the id `run`'s own aggregate release
closure gets when it is returned. -/
structure RunEnv where
  probe : Except Unit HealthCheckResponse
  startTransport : Except Unit Nat
  aggId : Nat
deriving Repr, DecidableEq

/-- Return value of `run`, which in Go is `(func() error, error)`:
`errored` is `(nil, err)`, `nilNil` is the guard short-circuit
`(nil, nil)`, and `started m aggId` is `(aggregate closure, nil)`
together with the initial state of the monitor it spawned. -/
inductive RunReturn where
  | errored
  | nilNil
  | started (m : MonitorState) (aggId : Nat)
deriving Repr, DecidableEq

/-- Embedding of `(*WebhooksController).run` up to spawning the monitor
(webhooks.go lines 134-167 and the goroutine-initial values of lines
173-176): probe once (failure aborts with an error); if the worker id is
already in `registeredWorkerIds` return `(nil, nil)` with no further
action; otherwise register the id, start the transport (failure aborts,
the id stays registered), record its release action as the one-element
cleanups slice, and spawn a monitor whose baseline fingerprints are the
hashes of the fetched manifest.  The first component is the updated
`registeredWorkerIds`. -/
def run (guard : List String) (tenantId : String) (ww : WorkerRecord)
    (token : String) (env : RunEnv) : List String × List Effect × RunReturn :=
  match env.probe with
  | .error _ => (guard, [.runProbe ww.id], .errored)
  | .ok h =>
    if ww.id ∈ guard then (guard, [.runProbe ww.id], .nilNil)
    else
      match env.startTransport with
      | .error _ => (ww.id :: guard, [.runProbe ww.id], .errored)
      | .ok cid =>
        (ww.id :: guard,
          [.runProbe ww.id, .startWorker ww.id,
            .spawnMonitor ww.id (hash h.actions) (hash h.workflows)],
          .started
            { tenantId := tenantId, ww := ww, token := token,
              wfsHashLast := hash h.workflows,
              actionsHashLast := hash h.actions,
              healthCheckErrors := 0, cleanups := [some cid] }
            env.aggId)

/-- External outcomes consumed by one monitor tick: the scheduled
health-check result and, should the capability-change branch run, the
environment of the re-invoked `run`. -/
structure TickEnv where
  probe : Except Unit HealthCheckResponse
  restart : RunEnv
deriving Repr, DecidableEq

/-- How one monitor tick ends: loop to the next tick with an updated
state, return from the goroutine leaving `finalChain` in the captured
`cleanups` variable (the capability-change branch), or panic (a nil
function was invoked). -/
inductive StepOutcome where
  | nextTick (s : MonitorState)
  | stopped (finalChain : List (Option Nat))
  | panicked
deriving Repr, DecidableEq

/-- Embedding of the cleanup loop in the capability-change branch
(webhooks.go lines 211-215): invoke each entry front to back; an error
is only logged and the loop continues; invoking a nil entry panics.
Returns the invocation effects and whether a panic occurred. -/
def invokeChain : List (Option Nat) → List Effect × Bool
  | [] => ([], false)
  | none :: _ => ([], true)
  | some cid :: rest =>
    let (es, p) := invokeChain rest
    (Effect.invokeCleanup cid :: es, p)

/-- Embedding of one `case <-timer.C:` body of the monitor goroutine
(webhooks.go lines 181-241).  On probe failure the counter increments
and, whenever it exceeds 3, the worker is marked inactive.  On probe
success with changed fingerprints: run the current cleanups (logging
errors), re-invoke `run`, replace the cleanups slice with the
one-element slice holding the returned function value, and return.  On
probe success with unchanged fingerprints: update the baselines, mark
the worker active, and reset the counter. -/
def monitorStep (guard : List String) (st : MonitorState) (env : TickEnv) :
    List String × List Effect × StepOutcome :=
  match env.probe with
  | .error _ =>
    let errs := st.healthCheckErrors + 1
    if errs > 3 then
      (guard,
        [.scheduledProbe st.ww.id, .updateWorker st.tenantId st.ww.id false],
        .nextTick { st with healthCheckErrors := errs })
    else
      (guard, [.scheduledProbe st.ww.id],
        .nextTick { st with healthCheckErrors := errs })
  | .ok h =>
    let wfsHash := hash h.workflows
    let actionsHash := hash h.actions
    if wfsHash != st.wfsHashLast || actionsHash != st.actionsHashLast then
      let (ces, pan) := invokeChain st.cleanups
      if pan then (guard, Effect.scheduledProbe st.ww.id :: ces, .panicked)
      else
        let (g', res, ret) := run guard st.tenantId st.ww st.token env.restart
        match ret with
        | .started _ aggId =>
          (g', Effect.scheduledProbe st.ww.id :: ces ++ res,
            .stopped [some aggId])
        | _ =>
          (g', Effect.scheduledProbe st.ww.id :: ces ++ res, .stopped [none])
    else
      (guard,
        [.scheduledProbe st.ww.id, .updateWorker st.tenantId st.ww.id true],
        .nextTick
          { st with wfsHashLast := wfsHash, actionsHashLast := actionsHash,
                    healthCheckErrors := 0 })

/-- Fold of `monitorStep` over a list of delivered timer ticks; stops
consuming ticks when the goroutine returns or panics. -/
def monitorRun (guard : List String) (st : MonitorState) :
    List TickEnv → List String × List Effect × StepOutcome
  | [] => (guard, [], .nextTick st)
  | e :: rest =>
    let (g', es, out) := monitorStep guard st e
    match out with
    | .nextTick s' =>
      let (g'', es', out') := monitorRun g' s' rest
      (g'', es ++ es', out')
    | _ => (g', es, out)

/-- Outcome of invoking a cleanup chain with return-on-first-error
semantics: all succeeded, a release action `cid` failed and its error
was returned, or a nil function value was invoked (runtime panic). -/
inductive ReleaseOutcome where
  | ok
  | errored (cid : Nat)
  | panicked
deriving Repr, DecidableEq

/-- Embedding of the aggregate release closure `run` returns
(webhooks.go lines 245-254): after cancelling the monitor context,
invoke the captured `cleanups` entries front to back and return on the
first error; invoking a nil entry panics.  `fails cid` tells whether
release action `cid` returns an error. -/
def aggregateRelease (fails : Nat → Bool) : List (Option Nat) → ReleaseOutcome
  | [] => .ok
  | none :: _ => .panicked
  | some cid :: rest =>
    if fails cid then .errored cid else aggregateRelease fails rest

/-- Embedding of the shutdown closure returned by `Start` (webhooks.go
lines 51-61): after cancelling the discovery loop, invoke the
accumulated top-level cleanups front to back, returning on the first
error.  Top-level entries are never nil (`check` filters nil), so the
chain is a list of release-action ids; the result is the list of ids
actually invoked, in order, and whether an error was returned. -/
def shutdownFn (fails : Nat → Bool) : List Nat → List Nat × Bool
  | [] => ([], false)
  | cid :: rest =>
    if fails cid then ([cid], true)
    else
      let (inv, e) := shutdownFn fails rest
      (cid :: inv, e)

/-- A tick whose scheduled probe fails; the restart environment is not
consulted on the failure path. -/
def failTick : TickEnv :=
  { probe := .error (),
    restart := { probe := .error (), startTransport := .error (), aggId := 0 } }

/-- A trace of `n` consecutive failing ticks. -/
def failTicks (n : Nat) : List TickEnv := List.replicate n failTick

/-- Number of `UpdateWorker(..., isActive := false)` calls in an effect
list. -/
def countInactiveWrites (es : List Effect) : Nat :=
  es.countP fun e =>
    match e with
    | .updateWorker _ _ false => true
    | _ => false

theorem countInactiveWrites_append (a b : List Effect) :
    countInactiveWrites (a ++ b) = countInactiveWrites a + countInactiveWrites b :=
  List.countP_append _ a b

theorem monitorRun_failTicks (n : Nat) :
    ∀ (guard : List String) (st : MonitorState),
      (monitorRun guard st (failTicks n)).1 = guard ∧
      countInactiveWrites (monitorRun guard st (failTicks n)).2.1 =
        (st.healthCheckErrors + n) - max 3 st.healthCheckErrors ∧
      (monitorRun guard st (failTicks n)).2.2 =
        .nextTick { st with healthCheckErrors := st.healthCheckErrors + n } := by
  induction n with
  | zero =>
    intro guard st
    refine ⟨rfl, ?_, ?_⟩
    · simp [failTicks, monitorRun, countInactiveWrites]
    · simp [failTicks, monitorRun]
  | succ n ih =>
    intro guard st
    have hcons : failTicks (n + 1) = failTick :: failTicks n := rfl
    have harith : st.healthCheckErrors + 1 + n = st.healthCheckErrors + (n + 1) := by
      omega
    by_cases h : st.healthCheckErrors + 1 > 3
    · have hstep :
          monitorStep guard st failTick =
            (guard,
              [.scheduledProbe st.ww.id,
                .updateWorker st.tenantId st.ww.id false],
              .nextTick { st with healthCheckErrors := st.healthCheckErrors + 1 }) := by
        simp [monitorStep, failTick, h]
      obtain ⟨ih1, ih2, ih3⟩ :=
        ih guard { st with healthCheckErrors := st.healthCheckErrors + 1 }
      rw [hcons]
      refine ⟨?_, ?_, ?_⟩
      · simp only [monitorRun, hstep]
        exact ih1
      · simp only [monitorRun, hstep]
        rw [countInactiveWrites_append, ih2]
        have hc : countInactiveWrites
            [.scheduledProbe st.ww.id,
              .updateWorker st.tenantId st.ww.id false] = 1 := rfl
        rw [hc]
        dsimp only
        omega
      · simp only [monitorRun, hstep]
        rw [ih3]
        dsimp only
        rw [harith]
    · have hstep :
          monitorStep guard st failTick =
            (guard, [.scheduledProbe st.ww.id],
              .nextTick { st with healthCheckErrors := st.healthCheckErrors + 1 }) := by
        simp [monitorStep, failTick, h]
      obtain ⟨ih1, ih2, ih3⟩ :=
        ih guard { st with healthCheckErrors := st.healthCheckErrors + 1 }
      rw [hcons]
      refine ⟨?_, ?_, ?_⟩
      · simp only [monitorRun, hstep]
        exact ih1
      · simp only [monitorRun, hstep]
        rw [countInactiveWrites_append, ih2]
        have hc : countInactiveWrites [.scheduledProbe st.ww.id] = 0 := rfl
        rw [hc]
        dsimp only
        omega
      · simp only [monitorRun, hstep]
        rw [ih3]
        dsimp only
        rw [harith]

/-- C2 (amended): over `n` consecutive failing probes starting from a
fresh counter, the inactive write happens `n - 3` times — first on the
4th consecutive failure and not earlier, and again on every further
consecutive failure — and the failure counter, never reset by failures,
ends at `n`. -/
theorem deactivation_threshold (tenantId token wfsHashLast actionsHashLast : String)
    (ww : WorkerRecord) (chain : List (Option Nat)) (guard : List String) (n : Nat) :
    countInactiveWrites
        (monitorRun guard
          { tenantId := tenantId, ww := ww, token := token,
            wfsHashLast := wfsHashLast, actionsHashLast := actionsHashLast,
            healthCheckErrors := 0, cleanups := chain }
          (failTicks n)).2.1 = n - 3 ∧
      (monitorRun guard
          { tenantId := tenantId, ww := ww, token := token,
            wfsHashLast := wfsHashLast, actionsHashLast := actionsHashLast,
            healthCheckErrors := 0, cleanups := chain }
          (failTicks n)).2.2 =
        .nextTick
          { tenantId := tenantId, ww := ww, token := token,
            wfsHashLast := wfsHashLast, actionsHashLast := actionsHashLast,
            healthCheckErrors := n, cleanups := chain } := by
  obtain ⟨_, h2, h3⟩ :=
    monitorRun_failTicks n guard
      { tenantId := tenantId, ww := ww, token := token,
        wfsHashLast := wfsHashLast, actionsHashLast := actionsHashLast,
        healthCheckErrors := 0, cleanups := chain }
  dsimp only at h2 h3
  refine ⟨?_, ?_⟩
  · rw [h2]
    omega
  · rw [h3]
    simp

/-- A monitor state as freshly created by `run` (counter 0, one release
action in the chain). -/
def stFresh : MonitorState :=
  { tenantId := "t", ww := { id := "w", url := "u", secret := "s" },
    token := "tok", wfsHashLast := "", actionsHashLast := "",
    healthCheckErrors := 0, cleanups := [some 0] }

/-- C2 counterexample: after 5 consecutive failing probes the inactive
write has happened twice, not exactly once. -/
theorem deactivation_written_repeatedly :
    countInactiveWrites (monitorRun [] stFresh (failTicks 5)).2.1 = 2 ∧
      countInactiveWrites (monitorRun [] stFresh (failTicks 5)).2.1 ≠ 1 := by
  decide

/-- Go `time.NewTimer` semantics for the monitor goroutine: the timer is
created once (webhooks.go line 170) and `Reset` is never called, so its
channel delivers at most one value over the goroutine's lifetime. -/
def timerMaxDeliveries : Nat := 1

/-- A tick trace the monitor goroutine can actually receive: no more
deliveries than its one-shot timer produces. -/
def feasibleTrace (tr : List TickEnv) : Prop :=
  tr.length ≤ timerMaxDeliveries

instance : DecidablePred feasibleTrace := fun tr =>
  (inferInstance : Decidable (tr.length ≤ timerMaxDeliveries))

/-- Number of scheduled probes (health checks at the top of a monitor
tick) in an effect list. -/
def countScheduledProbes (es : List Effect) : Nat :=
  es.countP fun e =>
    match e with
    | .scheduledProbe _ => true
    | _ => false

theorem countScheduledProbes_invokeChain (l : List (Option Nat)) :
    countScheduledProbes (invokeChain l).1 = 0 := by
  induction l with
  | nil => rfl
  | cons o rest ih =>
    cases o with
    | none => rfl
    | some cid => simp [invokeChain, countScheduledProbes, List.countP_cons] at ih ⊢; exact ih

theorem countScheduledProbes_run (guard : List String) (tenantId : String)
    (ww : WorkerRecord) (token : String) (env : RunEnv) :
    countScheduledProbes (run guard tenantId ww token env).2.1 = 0 := by
  rcases hp : env.probe with _ | h
  · simp [run, hp, countScheduledProbes]
  · by_cases hm : ww.id ∈ guard
    · simp [run, hp, hm, countScheduledProbes]
    · rcases hs : env.startTransport with _ | cid
      · simp [run, hp, hm, hs, countScheduledProbes]
      · simp [run, hp, hm, hs, countScheduledProbes]

theorem countScheduledProbes_append (a b : List Effect) :
    countScheduledProbes (a ++ b) =
      countScheduledProbes a + countScheduledProbes b :=
  List.countP_append _ a b

theorem countScheduledProbes_cons_probe (w : String) (l : List Effect) :
    countScheduledProbes (Effect.scheduledProbe w :: l) =
      countScheduledProbes l + 1 := by
  simp [countScheduledProbes, List.countP_cons]

theorem countScheduledProbes_monitorStep (guard : List String)
    (st : MonitorState) (env : TickEnv) :
    countScheduledProbes (monitorStep guard st env).2.1 = 1 := by
  rcases hp : env.probe with _ | h
  · by_cases hc : st.healthCheckErrors + 1 > 3 <;>
      simp [monitorStep, hp, hc, countScheduledProbes]
  · by_cases hch :
        (hash h.workflows != st.wfsHashLast
          || hash h.actions != st.actionsHashLast) = true
    · rcases hic : invokeChain st.cleanups with ⟨ces, pan⟩
      have h1 : countScheduledProbes ces = 0 := by
        have hx := countScheduledProbes_invokeChain st.cleanups
        rw [hic] at hx
        exact hx
      cases pan
      · rcases hr : run guard st.tenantId st.ww st.token env.restart with ⟨g', res, ret⟩
        have h2 : countScheduledProbes res = 0 := by
          have hx := countScheduledProbes_run guard st.tenantId st.ww st.token env.restart
          rw [hr] at hx
          exact hx
        have hstep : (monitorStep guard st env).2.1 =
            Effect.scheduledProbe st.ww.id :: (ces ++ res) := by
          cases ret <;> simp [monitorStep, hp, hch, hic, hr]
        rw [hstep, countScheduledProbes_cons_probe,
          countScheduledProbes_append, h1, h2]
      · have hstep : (monitorStep guard st env).2.1 =
            Effect.scheduledProbe st.ww.id :: ces := by
          simp [monitorStep, hp, hch, hic]
        rw [hstep, countScheduledProbes_cons_probe, h1]
    · simp [monitorStep, hp, countScheduledProbes, hch]

theorem countScheduledProbes_monitorRun (tr : List TickEnv) :
    ∀ (guard : List String) (st : MonitorState),
      countScheduledProbes (monitorRun guard st tr).2.1 ≤ tr.length := by
  induction tr with
  | nil => intro guard st; simp [monitorRun, countScheduledProbes]
  | cons e rest ih =>
    intro guard st
    rcases hs : monitorStep guard st e with ⟨g', es, out⟩
    have hone : countScheduledProbes es = 1 := by
      have hx := countScheduledProbes_monitorStep guard st e
      rw [hs] at hx
      exact hx
    cases out with
    | nextTick s' =>
      have hrec := ih g' s'
      have heff : (monitorRun guard st (e :: rest)).2.1 =
          es ++ (monitorRun g' s' rest).2.1 := by
        simp [monitorRun, hs]
      rw [heff, countScheduledProbes_append, hone, List.length_cons]
      omega
    | stopped fc =>
      have heff : (monitorRun guard st (e :: rest)).2.1 = es := by
        simp [monitorRun, hs]
      rw [heff, hone, List.length_cons]
      omega
    | panicked =>
      have heff : (monitorRun guard st (e :: rest)).2.1 = es := by
        simp [monitorRun, hs]
      rw [heff, hone, List.length_cons]
      omega

/-- C5 (evaluated against the code): over any tick trace the one-shot,
never-reset monitor timer can deliver, the monitor issues at most one
scheduled probe in its whole lifetime — it does not keep probing every
10 seconds. -/
theorem monitor_probes_at_most_once (guard : List String) (st : MonitorState)
    (tr : List TickEnv) (h : feasibleTrace tr) :
    countScheduledProbes (monitorRun guard st tr).2.1 ≤ timerMaxDeliveries :=
  le_trans (countScheduledProbes_monitorRun tr guard st) h

/-- Witness for the C5 theorem at the longest feasible trace. -/
theorem monitor_probes_at_most_once_witness :
    feasibleTrace [failTick] ∧
      countScheduledProbes (monitorRun [] stFresh [failTick]).2.1 ≤
        timerMaxDeliveries :=
  ⟨by decide, monitor_probes_at_most_once [] stFresh [failTick] (by decide)⟩

/-- Number of transport starts in an effect list. -/
def countStarts (es : List Effect) : Nat :=
  es.countP fun e =>
    match e with
    | .startWorker _ => true
    | _ => false

/-- Number of monitor spawns in an effect list. -/
def countMonitorSpawns (es : List Effect) : Nat :=
  es.countP fun e =>
    match e with
    | .spawnMonitor _ _ _ => true
    | _ => false

/-- Number of invocations of release action `cid` in an effect list. -/
def countCleanupInvocations (cid : Nat) (es : List Effect) : Nat :=
  es.countP fun e =>
    match e with
    | .invokeCleanup c => c == cid
    | _ => false

/-- A concrete worker record. -/
def wwX : WorkerRecord := { id := "w", url := "u", secret := "s" }

/-- Monitor state as created by a successful start against the manifest
with actions `["a","b"]` and no workflows: baseline fingerprints
captured, counter 0, transport release action `0` in the chain. -/
def stBase : MonitorState :=
  { tenantId := "t", ww := wwX, token := "tok",
    wfsHashLast := hash [], actionsHashLast := hash ["a", "b"],
    healthCheckErrors := 0, cleanups := [some 0] }

/-- A manifest whose action set gained `"c"` relative to `stBase`. -/
def changedManifest : HealthCheckResponse :=
  { actions := ["a", "b", "c"], workflows := [] }

/-- A tick that probes the changed manifest; the restart's own probe
also succeeds with it and its transport start would succeed. -/
def tickChanged : TickEnv :=
  { probe := .ok changedManifest,
    restart := { probe := .ok changedManifest, startTransport := .ok 1, aggId := 2 } }

/-- C1 (evaluated against the code at the failing input): with worker
`"w"` already registered and a successful probe whose action set changed
from `["a","b"]` to `["a","b","c"]`, the monitor invokes the old
transport's release action exactly once, but the re-invoked `run` hits
the registration guard and returns `(nil, nil)`: no replacement
transport is started, no new monitor is spawned, and the cleanups slice
is left holding a single nil function. -/
theorem change_restart_noop_eval :
    monitorStep ["w"] stBase tickChanged =
      (["w"],
        [.scheduledProbe "w", .invokeCleanup 0, .runProbe "w"],
        .stopped [none]) ∧
      countCleanupInvocations 0 (monitorStep ["w"] stBase tickChanged).2.1 = 1 ∧
      countStarts (monitorStep ["w"] stBase tickChanged).2.1 = 0 ∧
      countMonitorSpawns (monitorStep ["w"] stBase tickChanged).2.1 = 0 := by
  decide

/-- C9: when a capability change is detected while the worker id is
already registered (which the restart path guarantees, since ids are
never removed), the monitor replaces its cleanups slice with the
one-element slice `[nil]`, and any later invocation of the aggregate
release closure returned by the original `run` call panics on the nil
function instead of returning an error. -/
theorem restart_nil_cleanup_panics (guard : List String) (st : MonitorState)
    (env : TickEnv) (h hr : HealthCheckResponse) (cid : Nat) (fails : Nat → Bool)
    (hp : env.probe = .ok h)
    (hch : (hash h.workflows != st.wfsHashLast
      || hash h.actions != st.actionsHashLast) = true)
    (hchain : st.cleanups = [some cid])
    (hreg : st.ww.id ∈ guard)
    (hrp : env.restart.probe = .ok hr) :
    (monitorStep guard st env).2.2 = .stopped [none] ∧
      aggregateRelease fails [none] = .panicked := by
  refine ⟨?_, rfl⟩
  simp [monitorStep, hp, hch, hchain, invokeChain, run, hrp, hreg]

/-- Witness for C9 in the concrete changed-manifest scenario. -/
theorem restart_nil_cleanup_panics_witness :
    (monitorStep ["w"] stBase tickChanged).2.2 = .stopped [none] ∧
      aggregateRelease (fun _ => false) [none] = .panicked :=
  restart_nil_cleanup_panics ["w"] stBase tickChanged changedManifest
    changedManifest 0 (fun _ => false) rfl (by decide) rfl (by decide) rfl

/-- `stBase` after two consecutive probe failures (Degraded(2)). -/
def stDegraded : MonitorState := { stBase with healthCheckErrors := 2 }

/-- C7 counterexample: a successful probe whose fingerprints changed
does not write the worker active and does not reset the counter — the
monitor takes the restart branch and returns instead. -/
theorem success_without_recovery :
    Effect.updateWorker "t" "w" true ∉
        (monitorStep ["w"] stDegraded tickChanged).2.1 ∧
      (monitorStep ["w"] stDegraded tickChanged).2.2 = .stopped [none] := by
  decide

/-- C7 (amended): any successful probe whose fingerprints match the
baseline writes the persisted record active (in particular back to
active if it had been marked inactive) and resets the failure counter
to 0; a successful probe with changed fingerprints instead takes the
restart branch. -/
theorem recovery_on_matching_success (guard : List String) (st : MonitorState)
    (env : TickEnv) (h : HealthCheckResponse)
    (hp : env.probe = .ok h)
    (hw : hash h.workflows = st.wfsHashLast)
    (ha : hash h.actions = st.actionsHashLast) :
    Effect.updateWorker st.tenantId st.ww.id true ∈
        (monitorStep guard st env).2.1 ∧
      (monitorStep guard st env).2.2 =
        .nextTick
          { st with wfsHashLast := hash h.workflows,
                    actionsHashLast := hash h.actions,
                    healthCheckErrors := 0 } := by
  constructor <;> simp [monitorStep, hp, hw, ha]

/-- A probe result whose fingerprints match `stBase`'s baseline (listed
in a different order, exercising order-independence of `hash`). -/
def matchingManifest : HealthCheckResponse :=
  { actions := ["b", "a"], workflows := [] }

/-- A tick that probes the matching manifest. -/
def tickMatching : TickEnv :=
  { probe := .ok matchingManifest,
    restart := { probe := .error (), startTransport := .error (), aggId := 0 } }

/-- Witness for the amended C7: from Degraded(2), a matching success
writes active and resets the counter to 0. -/
theorem recovery_on_matching_success_witness :
    Effect.updateWorker "t" "w" true ∈
        (monitorStep ["w"] stDegraded tickMatching).2.1 ∧
      (monitorStep ["w"] stDegraded tickMatching).2.2 =
        .nextTick
          { stDegraded with wfsHashLast := hash ([] : List String),
                            actionsHashLast := hash ["b", "a"],
                            healthCheckErrors := 0 } :=
  recovery_on_matching_success ["w"] stDegraded tickMatching matchingManifest
    rfl (by decide) (by decide)

/-- C10: on every successful probe whose fingerprints match the
baseline the monitor writes `isActive := true` to the persisted worker
record — unconditionally, for any failure-counter value including 0,
i.e. also when the record was never marked inactive. -/
theorem active_written_on_every_matching_success (guard : List String)
    (st : MonitorState) (env : TickEnv) (h : HealthCheckResponse)
    (hp : env.probe = .ok h)
    (hw : hash h.workflows = st.wfsHashLast)
    (ha : hash h.actions = st.actionsHashLast) :
    monitorStep guard st env =
      (guard,
        [.scheduledProbe st.ww.id, .updateWorker st.tenantId st.ww.id true],
        .nextTick
          { st with wfsHashLast := hash h.workflows,
                    actionsHashLast := hash h.actions,
                    healthCheckErrors := 0 }) := by
  simp [monitorStep, hp, hw, ha]

/-- Witness for C10 at a healthy monitor (counter 0, never inactive):
the active write still happens. -/
theorem active_written_on_every_matching_success_witness :
    stBase.healthCheckErrors = 0 ∧
      monitorStep ["w"] stBase tickMatching =
        (["w"],
          [.scheduledProbe "w", .updateWorker "t" "w" true],
          .nextTick
            { stBase with wfsHashLast := hash ([] : List String),
                          actionsHashLast := hash ["b", "a"],
                          healthCheckErrors := 0 }) :=
  ⟨rfl, active_written_on_every_matching_success ["w"] stBase tickMatching
    matchingManifest rfl (by decide) (by decide)⟩

/-- C6: starting a worker and then re-invoking the startup path for the
same identity starts exactly one transport and spawns exactly one
monitor: the second call returns `(nil, nil)` right after the guard
check, with no further effects and no change to the registered set. -/
theorem run_idempotent_registration (guard : List String)
    (tenantId token : String) (ww : WorkerRecord) (env1 env2 : RunEnv)
    (h1 h2 : HealthCheckResponse) (cid : Nat)
    (hni : ww.id ∉ guard)
    (hp1 : env1.probe = .ok h1) (hs1 : env1.startTransport = .ok cid)
    (hp2 : env2.probe = .ok h2) :
    run (run guard tenantId ww token env1).1 tenantId ww token env2 =
      ((run guard tenantId ww token env1).1, [.runProbe ww.id], .nilNil) ∧
      countStarts ((run guard tenantId ww token env1).2.1 ++
        (run (run guard tenantId ww token env1).1 tenantId ww token env2).2.1) = 1 ∧
      countMonitorSpawns ((run guard tenantId ww token env1).2.1 ++
        (run (run guard tenantId ww token env1).1 tenantId ww token env2).2.1) = 1 := by
  have hg1 : (run guard tenantId ww token env1).1 = ww.id :: guard := by
    simp [run, hp1, hs1, hni]
  have he1 : (run guard tenantId ww token env1).2.1 =
      [.runProbe ww.id, .startWorker ww.id,
        .spawnMonitor ww.id (hash h1.actions) (hash h1.workflows)] := by
    simp [run, hp1, hs1, hni]
  have hrun2 : run (run guard tenantId ww token env1).1 tenantId ww token env2 =
      ((run guard tenantId ww token env1).1, [.runProbe ww.id], .nilNil) := by
    rw [hg1]
    simp [run, hp2]
  refine ⟨hrun2, ?_, ?_⟩ <;>
    rw [he1, hrun2] <;>
    simp [countStarts, countMonitorSpawns, List.countP_cons, List.countP_append]

/-- Environment for a first, successful `run` call. -/
def envStart : RunEnv :=
  { probe := .ok matchingManifest, startTransport := .ok 0, aggId := 5 }

/-- Environment for a second `run` call for the same worker. -/
def envSecond : RunEnv :=
  { probe := .ok changedManifest, startTransport := .ok 7, aggId := 8 }

/-- Witness for C6 at concrete inputs. -/
theorem run_idempotent_registration_witness :
    run (run [] "t" wwX "tok" envStart).1 "t" wwX "tok" envSecond =
      ((run [] "t" wwX "tok" envStart).1, [.runProbe "w"], .nilNil) ∧
      countStarts ((run [] "t" wwX "tok" envStart).2.1 ++
        (run (run [] "t" wwX "tok" envStart).1 "t" wwX "tok" envSecond).2.1) = 1 ∧
      countMonitorSpawns ((run [] "t" wwX "tok" envStart).2.1 ++
        (run (run [] "t" wwX "tok" envStart).1 "t" wwX "tok" envSecond).2.1) = 1 :=
  run_idempotent_registration [] "t" "tok" wwX envStart envSecond
    matchingManifest changedManifest 0 (by decide) rfl rfl rfl

/-- C3 counterexample: with two accumulated release actions of which
the first fails, the shutdown closure invokes only the first and
returns its error; the second release action is never attempted. -/
theorem shutdown_skips_after_error :
    (shutdownFn (fun c => c == 0) [0, 1]).1 = [0] ∧
      1 ∉ (shutdownFn (fun c => c == 0) [0, 1]).1 ∧
      (shutdownFn (fun c => c == 0) [0, 1]).2 = true := by
  decide

/-- C3 (amended): the shutdown closure invokes the accumulated release
actions front to back up to and including the first failing one,
returns an error iff some release action fails, and skips every release
action after the first failure (not at-least-one-attempt-each). -/
theorem shutdown_stops_at_first_error (fails : Nat → Bool) (cs : List Nat) :
    shutdownFn fails cs =
      (cs.takeWhile (fun c => !fails c) ++
          (cs.dropWhile (fun c => !fails c)).take 1,
        cs.any fails) := by
  induction cs with
  | nil => rfl
  | cons c rest ih =>
    by_cases h : fails c
    · simp [shutdownFn, h, List.takeWhile_cons, List.dropWhile_cons]
    · simp [shutdownFn, h, List.takeWhile_cons, List.dropWhile_cons, ih]

/-- What `check` consumes for one tenant: its id, the token-issuance
outcome, and the worker-listing outcome, each worker paired with the
environment its `run` call consumes. -/
structure TenantEnv where
  tenantId : String
  token : Except Unit String
  workers : Except Unit (List (WorkerRecord × RunEnv))
deriving DecidableEq

/-- How a `check` cycle ends: normally, with the tenant-listing error,
with a worker-listing error for some tenant (returned, aborting the
cycle), or with the panic `check` raises when token issuance fails. -/
inductive CheckOutcome where
  | ok
  | errTenants
  | errWorkers (tenantId : String)
  | panicked (tenantId : String)
deriving Repr, DecidableEq

/-- Embedding of `check`'s inner per-worker loop (webhooks.go lines
83-92): for each worker, call `run`; an error is logged and the loop
continues; a non-nil returned cleanup is appended to the controller's
top-level cleanups (the returned `List Nat`). -/
def runWorkers (guard : List String) (tenantId token : String) :
    List (WorkerRecord × RunEnv) → List String × List Effect × List Nat
  | [] => (guard, [], [])
  | (ww, env) :: rest =>
    let r := run guard tenantId ww token env
    let rs := runWorkers r.1 tenantId token rest
    (rs.1,
      Effect.runAttempt ww.id :: r.2.1 ++ rs.2.1,
      match r.2.2 with
      | .started _ aggId => aggId :: rs.2.2
      | _ => rs.2.2)

/-- Embedding of `check`'s per-tenant loop (webhooks.go lines 70-93):
token-issuance failure panics; a worker-listing failure is returned,
aborting the remaining tenants; otherwise the per-worker loop runs and
the next tenant is processed. -/
def checkTenants (guard : List String) :
    List TenantEnv → List String × List Effect × List Nat × CheckOutcome
  | [] => (guard, [], [], .ok)
  | t :: rest =>
    match t.token with
    | .error _ => (guard, [], [], .panicked t.tenantId)
    | .ok token =>
      match t.workers with
      | .error _ => (guard, [], [], .errWorkers t.tenantId)
      | .ok ws =>
        let r := runWorkers guard t.tenantId token ws
        let rs := checkTenants r.1 rest
        (rs.1,
          Effect.workersListed t.tenantId :: r.2.1 ++ rs.2.1,
          r.2.2 ++ rs.2.2.1,
          rs.2.2.2)

/-- Embedding of `check` (webhooks.go lines 64-96): list the tenants
(failure returns an error) and fold the per-tenant loop over them. -/
def check (guard : List String) (tenants : Except Unit (List TenantEnv)) :
    List String × List Effect × List Nat × CheckOutcome :=
  match tenants with
  | .error _ => (guard, [], [], .errTenants)
  | .ok ts => checkTenants guard ts

theorem runAttempt_mem_runWorkers (tenantId token : String) :
    ∀ (ws : List (WorkerRecord × RunEnv)) (guard : List String)
      (w : WorkerRecord × RunEnv), w ∈ ws →
      Effect.runAttempt w.1.id ∈ (runWorkers guard tenantId token ws).2.1 := by
  intro ws
  induction ws with
  | nil =>
    intro guard w hw
    cases hw
  | cons p rest ih =>
    intro guard w hw
    rcases p with ⟨ww, env⟩
    have heff : (runWorkers guard tenantId token ((ww, env) :: rest)).2.1 =
        Effect.runAttempt ww.id ::
          (run guard tenantId ww token env).2.1 ++
          (runWorkers (run guard tenantId ww token env).1 tenantId token rest).2.1 :=
      rfl
    rw [heff]
    rcases List.mem_cons.mp hw with heq | hmem
    · subst heq
      exact List.mem_cons_self _ _
    · exact List.mem_cons_of_mem _
        (List.mem_append_right _ (ih _ w hmem))

theorem workersListed_mem_checkTenants :
    ∀ (ts : List TenantEnv) (guard : List String),
      (∀ t ∈ ts, t.token.isOk ∧ t.workers.isOk) →
      ∀ t ∈ ts, Effect.workersListed t.tenantId ∈ (checkTenants guard ts).2.1 := by
  intro ts
  induction ts with
  | nil =>
    intro guard _ t ht
    cases ht
  | cons t0 rest ih =>
    intro guard hok t ht
    have hok0 := hok t0 (List.mem_cons_self _ _)
    rcases htok : t0.token with e | token
    · rw [htok] at hok0
      simp [Except.isOk, Except.toBool] at hok0
    · rcases hws : t0.workers with e | ws
      · rw [hws] at hok0
        simp [Except.isOk, Except.toBool] at hok0
      · have heff : (checkTenants guard (t0 :: rest)).2.1 =
            Effect.workersListed t0.tenantId ::
              (runWorkers guard t0.tenantId token ws).2.1 ++
              (checkTenants (runWorkers guard t0.tenantId token ws).1 rest).2.1 := by
          simp [checkTenants, htok, hws]
        rw [heff]
        rcases List.mem_cons.mp ht with heq | hmem
        · subst heq
          exact List.mem_cons_self _ _
        · exact List.mem_cons_of_mem _
            (List.mem_append_right _
              (ih _ (fun t' ht' => hok t' (List.mem_cons_of_mem _ ht')) t hmem))

/-- C4 (amended): per-worker failures are isolated — every worker in a
tenant's listing gets its `run` attempt regardless of other workers'
failures — and when every tenant's token issuance and worker listing
succeed, every tenant is scanned; but a tenant's worker-listing failure
aborts the whole cycle (see the counterexample). -/
theorem scan_isolation_amended :
    (∀ (guard : List String) (tenantId token : String)
        (ws : List (WorkerRecord × RunEnv)) (w : WorkerRecord × RunEnv),
      w ∈ ws →
        Effect.runAttempt w.1.id ∈ (runWorkers guard tenantId token ws).2.1) ∧
    (∀ (guard : List String) (ts : List TenantEnv),
      (∀ t ∈ ts, t.token.isOk ∧ t.workers.isOk) →
      ∀ t ∈ ts, Effect.workersListed t.tenantId ∈ (checkTenants guard ts).2.1) :=
  ⟨fun _ tenantId token ws w hw =>
      runAttempt_mem_runWorkers tenantId token ws _ w hw,
    fun guard ts hok t ht => workersListed_mem_checkTenants ts guard hok t ht⟩

/-- Two tenants, the first of which fails its worker listing. -/
def tsBad : List TenantEnv :=
  [{ tenantId := "t1", token := .ok "tok", workers := .error () },
   { tenantId := "t2", token := .ok "tok", workers := .ok [] }]

/-- C4 counterexample: the first tenant's `ListWebhookWorkers` fails;
`check` returns that error and the second tenant is never scanned in
this cycle. -/
theorem listing_failure_aborts_scan :
    (check [] (.ok tsBad)).2.2.2 = CheckOutcome.errWorkers "t1" ∧
      Effect.workersListed "t2" ∉ (check [] (.ok tsBad)).2.1 ∧
      (check [] (.ok tsBad)).2.1 = [] := by
  decide

/-- A `run` environment whose probe fails. -/
def envProbeFail : RunEnv :=
  { probe := .error (), startTransport := .error (), aggId := 0 }

/-- Two healthy-listing tenants, the first with one failing worker. -/
def tsGood : List TenantEnv :=
  [{ tenantId := "t1", token := .ok "tok", workers := .ok [(wwX, envProbeFail)] },
   { tenantId := "t2", token := .ok "tok", workers := .ok [] }]

/-- Witness for the amended C4: the failing worker is still attempted,
and with both listings succeeding both tenants are scanned. -/
theorem scan_isolation_amended_witness :
    Effect.runAttempt "w" ∈ (runWorkers [] "t1" "tok" [(wwX, envProbeFail)]).2.1 ∧
      Effect.workersListed "t2" ∈ (checkTenants [] tsGood).2.1 :=
  ⟨scan_isolation_amended.1 [] "t1" "tok" [(wwX, envProbeFail)]
      (wwX, envProbeFail) (by decide),
    scan_isolation_amended.2 [] tsGood (by decide)
      { tenantId := "t2", token := .ok "tok", workers := .ok [] } (by decide)⟩

end Webhooks
